import Mathlib

/-!
Shallow embedding of the S3-configuration panel and the connectivity-test
API route of the readest repository, together with theorems settling the
specification claims about them.

The embedding covers:
* `S3Config` — src/apps/readest-app/src/types/s3config.ts
* `handler` — src/apps/readest-app/src/pages/api/storage/test-s3.ts,
  with the S3 `send` of the HeadBucket command abstracted as a `probe`
  parameter and the side effects (cors middleware, client construction,
  the HeadBucket request) recorded in an effect trace
* the S3ConfigPanel component — its store-change reconciliation effect,
  `saveConfigToStore`, `handleChange`, the registered reset function and
  `handleTestConnection`, with store interactions recorded as effects.
-/

/-- The S3 configuration record (`S3Config` in types/s3config.ts). -/
structure S3Config where
  endpoint : String
  accessKeyId : String
  secretAccessKey : String
  region : String
  bucket : String
  pathStyle : Bool
deriving DecidableEq, Repr

/-- The fields destructured from `req.body` in the API route; each may be
absent (`none`, i.e. `undefined` in the JavaScript source). -/
structure ReqBody where
  endpoint : Option String
  accessKeyId : Option String
  secretAccessKey : Option String
  region : Option String
  bucket : Option String
  pathStyle : Option Bool
deriving DecidableEq, Repr

/-- An incoming HTTP request: its method and its parsed body; `none` for the
body models an `undefined` `req.body`. -/
structure Request where
  method : String
  body : Option ReqBody
deriving DecidableEq, Repr

/-- JavaScript truthiness test `!x` on a possibly-absent string field: true
exactly when the field is absent (undefined) or the empty string. -/
def falsyStr (o : Option String) : Bool := o.getD "" == ""

/-- The options record passed to `new S3Client({...})` in the route. -/
structure S3ClientConfig where
  endpoint : Option String
  region : String
  accessKeyId : String
  secretAccessKey : String
  forcePathStyle : Bool
deriving DecidableEq, Repr

/-- An error thrown by the storage client: its `name` and `message`. -/
structure S3Error where
  name : String
  message : String
deriving DecidableEq, Repr

/-- JSON response bodies produced by the route: `{error: msg}` or
`{success, message}`. -/
inductive RespBody where
  | err (msg : String)
  | result (success : Bool) (message : String)
deriving DecidableEq, Repr

/-- An HTTP response: status code and JSON body. -/
structure Response where
  status : Nat
  body : RespBody
deriving DecidableEq, Repr

/-- Observable side effects of the route handler, in order of occurrence. -/
inductive Effect where
  | cors
  | constructClient (c : S3ClientConfig)
  | headBucket (bucket : String)
deriving DecidableEq, Repr

/-- The `new S3Client({endpoint: endpoint || undefined, region: region ||
us-east-1, credentials, forcePathStyle: pathStyle || false})` construction. -/
def buildClient (b : ReqBody) : S3ClientConfig :=
  { endpoint := if falsyStr b.endpoint then none else b.endpoint
    region := if falsyStr b.region then "us-east-1" else b.region.getD ""
    accessKeyId := b.accessKeyId.getD ""
    secretAccessKey := b.secretAccessKey.getD ""
    forcePathStyle := b.pathStyle.getD false }

/-- Message of the TypeError raised when the route destructures an undefined
`req.body`; the exception is caught by the surrounding try/catch. -/
def destructureUndefinedMsg : String :=
  "Cannot destructure property endpoint of req.body as it is undefined"

/-- The API route handler of pages/api/storage/test-s3.ts. `probe` abstracts
`s3Client.send(new HeadBucketCommand({Bucket: bucket}))`: it returns `ok` on
success, or the thrown error. The returned list records the side effects in
order: cors middleware always runs first; the client construction and the
HeadBucket request happen only after validation passes. -/
def handler (probe : S3ClientConfig → String → Except S3Error Unit)
    (req : Request) : Response × List Effect :=
  if req.method ≠ "POST" then
    (⟨405, .err "Method not allowed"⟩, [.cors])
  else
    match req.body with
    | none =>
        (⟨500, .result false ("Connection test failed: " ++ destructureUndefinedMsg)⟩,
         [.cors])
    | some b =>
        if falsyStr b.accessKeyId || falsyStr b.secretAccessKey || falsyStr b.bucket then
          (⟨400, .err "Missing required fields: accessKeyId, secretAccessKey, or bucket"⟩,
           [.cors])
        else
          let c := buildClient b
          let bucket := b.bucket.getD ""
          match probe c bucket with
          | .ok _ =>
              (⟨200, .result true "Connection test successful"⟩,
               [.cors, .constructClient c, .headBucket bucket])
          | .error e =>
              (⟨500, .result false ("Connection test failed: " ++
                 (if e.name == "NoSuchBucket" then "Bucket not found" else e.message))⟩,
               [.cors, .constructClient c, .headBucket bucket])

/-! ## The panel -/

/-- A displayed test result `{success, message}`. -/
structure TestOutcome where
  success : Bool
  message : String
deriving DecidableEq, Repr

/-- The slice of the settings store the panel touches: `settings.s3Config`,
possibly absent. -/
structure Settings where
  s3Config : Option S3Config
deriving DecidableEq, Repr

/-- The panel component state: the local editing copy of the config, the
displayed test result and the testing flag. -/
structure PanelState where
  config : S3Config
  testResult : Option TestOutcome
  isTesting : Bool
deriving DecidableEq, Repr

/-- The all-empty default configuration used by the initial state and the
reset function. -/
def emptyConfig : S3Config :=
  { endpoint := "", accessKeyId := "", secretAccessKey := ""
    region := "", bucket := "", pathStyle := false }

/-- Observable store and checker interactions of the panel. -/
inductive PanelEff where
  | setSettingsCall (s : Settings)
  | saveSettingsCall (s : Settings)
  | connectivityCheck (c : S3Config)
deriving DecidableEq, Repr

/-- Equality of the five non-secret fields, as the reconciliation effect
computes it by comparing `JSON.stringify` of the records built from
`{endpoint, accessKeyId, region, bucket, pathStyle}` of each side. -/
def nonSecretEq (a b : S3Config) : Bool :=
  a.endpoint == b.endpoint && a.accessKeyId == b.accessKeyId &&
  a.region == b.region && a.bucket == b.bucket && a.pathStyle == b.pathStyle

/-- Truthiness test of the `else if` branch of the reconciliation effect:
`config.endpoint || config.accessKeyId || config.region || config.bucket ||
config.pathStyle` (the secret is not consulted). -/
def anyNonSecretSet (c : S3Config) : Bool :=
  c.endpoint != "" || c.accessKeyId != "" || c.region != "" ||
  c.bucket != "" || c.pathStyle

/-- The store-change reconciliation effect of the panel: when a stored config
exists and its non-secret fields differ from the local ones, the local copy is
replaced wholesale by `{...settings.s3Config}` (secret included); when they
agree, the local copy is kept. When no stored config exists and any non-secret
local field is set, all fields reset to defaults except that
`prev.secretAccessKey` is kept. -/
def reconcile (config : S3Config) (stored : Option S3Config) : S3Config :=
  match stored with
  | some sc => if nonSecretEq config sc then config else sc
  | none =>
      if anyNonSecretSet config then
        { endpoint := "", accessKeyId := "", secretAccessKey := config.secretAccessKey
          region := "", bucket := "", pathStyle := false }
      else config

/-- `saveConfigToStore`: builds `{...settings, s3Config: newConfig}`, calls
`setSettings` with it, then awaits `saveSettings`; on success it displays the
saved-successfully message, on a thrown error the failure message with the
error text. `saveOutcome` abstracts whether `saveSettings` throws. -/
def saveConfigToStore (saveOutcome : Except String Unit)
    (settings : Settings) (st : PanelState) (newConfig : S3Config) :
    Settings × PanelState × List PanelEff :=
  let newSettings : Settings := { settings with s3Config := some newConfig }
  match saveOutcome with
  | .ok _ =>
      (newSettings,
       { st with testResult := some ⟨true, "S3 configuration saved successfully"⟩ },
       [.setSettingsCall newSettings, .saveSettingsCall newSettings])
  | .error e =>
      (newSettings,
       { st with testResult := some ⟨false, "Failed to save S3 configuration: " ++ e⟩ },
       [.setSettingsCall newSettings, .saveSettingsCall newSettings])

/-- One field edit `(field, value)` as dispatched by the input elements:
each call site passes the value of the matching type. -/
inductive FieldEdit where
  | endpoint (s : String)
  | accessKeyId (s : String)
  | secretAccessKey (s : String)
  | region (s : String)
  | bucket (s : String)
  | pathStyle (b : Bool)
deriving DecidableEq, Repr

/-- `{...config, [field]: value}` at the call sites of `handleChange`. -/
def applyEdit (c : S3Config) : FieldEdit → S3Config
  | .endpoint s => { c with endpoint := s }
  | .accessKeyId s => { c with accessKeyId := s }
  | .secretAccessKey s => { c with secretAccessKey := s }
  | .region s => { c with region := s }
  | .bucket s => { c with bucket := s }
  | .pathStyle b => { c with pathStyle := b }

/-- `handleChange`: builds the new config, applies it to the local state with
`setConfig`, then immediately calls `saveConfigToStore` with it. -/
def handleChange (saveOutcome : Except String Unit)
    (settings : Settings) (st : PanelState) (edit : FieldEdit) :
    Settings × PanelState × List PanelEff :=
  let newConfig := applyEdit st.config edit
  saveConfigToStore saveOutcome settings { st with config := newConfig } newConfig

/-- The reset function registered with the parent coordinator through
`onRegisterReset`: it only calls `setConfig` with the all-empty defaults; it
touches neither `setSettings` nor `saveSettings`. -/
def resetFn (settings : Settings) (st : PanelState) :
    Settings × PanelState × List PanelEff :=
  (settings, { st with config := emptyConfig }, [])

/-- `handleTestConnection`: sets the testing flag, clears the result, waits on
a one-second timer, then unconditionally displays the successful result; the
finally-block clears the testing flag. No connectivity check of any kind is
issued (the call to a real test is commented out in the source). -/
def handleTestConnection (st : PanelState) : PanelState × List PanelEff :=
  ({ st with testResult := some ⟨true, "Connection test successful"⟩
             isTesting := false },
   [])

/-! ## Concrete inputs used by witnesses and counterexamples -/

/-- A probe for which the bucket existence check succeeds. -/
def probeOk : S3ClientConfig → String → Except S3Error Unit := fun _ _ => .ok ()

/-- A probe that fails with an error that is not the missing-bucket class but
whose message text happens to read like the friendly message. -/
def probeAccessDenied : S3ClientConfig → String → Except S3Error Unit :=
  fun _ _ => .error ⟨"AccessDenied", "Bucket not found"⟩

/-- A request body with exactly the three required fields set. -/
def sampleBody : ReqBody := ⟨none, some "AK", some "SK", none, some "b", none⟩

/-- A POST request carrying `sampleBody`. -/
def sampleReq : Request := ⟨"POST", some sampleBody⟩


/-! ## Claims about the API route -/

/-- Claim C1 (amended): for every POST whose body has non-empty accessKeyId,
secretAccessKey and bucket, a successful HeadBucket probe yields status 200
with body success true and the successful-test message; a failed probe yields
status 500 with body success false and message prefixed by the failure text,
whose detail is the friendly bucket-not-found text when the error name is the
missing-bucket class and the underlying error message text otherwise. -/
theorem handler_probe_response
    (probe : S3ClientConfig → String → Except S3Error Unit) (req : Request) (b : ReqBody)
    (hm : req.method = "POST") (hb : req.body = some b)
    (h1 : falsyStr b.accessKeyId = false) (h2 : falsyStr b.secretAccessKey = false)
    (h3 : falsyStr b.bucket = false) :
    (probe (buildClient b) (b.bucket.getD "") = .ok () →
      (handler probe req).1 = ⟨200, .result true "Connection test successful"⟩) ∧
    (∀ e : S3Error, probe (buildClient b) (b.bucket.getD "") = .error e →
      (handler probe req).1 = ⟨500, .result false ("Connection test failed: " ++
        (if e.name == "NoSuchBucket" then "Bucket not found" else e.message))⟩) := by
  unfold handler
  simp only [hm, hb, h1, h2, h3, ne_eq, not_true_eq_false, Bool.or_self, Bool.or_false,
    if_false, Bool.false_eq_true, ite_false]
  constructor
  · intro hp
    simp only [hp]
  · intro e hp
    simp only [hp]

/-- Witness for handler_probe_response at a concrete successful probe. -/
theorem handler_probe_response_witness :
    (handler probeOk sampleReq).1 = ⟨200, .result true "Connection test successful"⟩ :=
  (handler_probe_response probeOk sampleReq sampleBody rfl rfl (by decide) (by decide)
    (by decide)).1 rfl

/-- Claim C1 counterexample: a probe error whose class is not the
missing-bucket class but whose message text is the friendly bucket-not-found
text produces exactly that detail, refuting the only-when direction of the
claim that the detail equals the friendly text only for the missing-bucket
error class. -/
theorem handler_detail_without_missing_bucket_class :
    (handler probeAccessDenied sampleReq).1 =
      ⟨500, .result false "Connection test failed: Bucket not found"⟩ ∧
    "AccessDenied" ≠ "NoSuchBucket" := by decide

/-- Claim C2: a POST whose body lacks any of accessKeyId, secretAccessKey or
bucket (absent or empty) is answered 400 with the missing-fields error, and
the effect trace holds only the cors middleware: no storage client is
constructed and no network request is issued. -/
theorem handler_missing_fields
    (probe : S3ClientConfig → String → Except S3Error Unit) (req : Request) (b : ReqBody)
    (hm : req.method = "POST") (hb : req.body = some b)
    (h : falsyStr b.accessKeyId = true ∨ falsyStr b.secretAccessKey = true ∨
      falsyStr b.bucket = true) :
    handler probe req =
      (⟨400, .err "Missing required fields: accessKeyId, secretAccessKey, or bucket"⟩,
       [.cors]) := by
  unfold handler
  rcases h with h | h | h <;>
    simp only [hm, hb, h, ne_eq, not_true_eq_false, Bool.true_or, Bool.or_true,
      if_false, Bool.false_eq_true, ite_false, ite_true]

/-- Witness for handler_missing_fields with a body holding only the bucket. -/
theorem handler_missing_fields_witness :
    handler probeOk ⟨"POST", some ⟨none, none, none, none, some "b", none⟩⟩ =
      (⟨400, .err "Missing required fields: accessKeyId, secretAccessKey, or bucket"⟩,
       [.cors]) :=
  handler_missing_fields probeOk _ ⟨none, none, none, none, some "b", none⟩ rfl rfl
    (Or.inl (by decide))

/-- Claim C5: for every request the permissive cors middleware is the first
recorded effect, whatever the method, and every request whose method is not
POST is answered with status 405. -/
theorem handler_cors_first_and_405
    (probe : S3ClientConfig → String → Except S3Error Unit) (req : Request) :
    (handler probe req).2.head? = some Effect.cors ∧
    (req.method ≠ "POST" → (handler probe req).1 = ⟨405, .err "Method not allowed"⟩) := by
  constructor
  · unfold handler
    split
    · rfl
    · match req.body with
      | none => rfl
      | some b =>
        simp only
        split
        · rfl
        · cases probe (buildClient b) (b.bucket.getD "") <;> rfl
  · intro h
    unfold handler
    simp only [h, ne_eq, not_false_eq_true, ite_true, if_true]

/-- Witness for handler_cors_first_and_405 at a concrete GET request. -/
theorem handler_cors_first_and_405_witness :
    (handler probeOk ⟨"GET", none⟩).2.head? = some Effect.cors ∧
    (handler probeOk ⟨"GET", none⟩).1 = ⟨405, .err "Method not allowed"⟩ :=
  ⟨(handler_cors_first_and_405 probeOk ⟨"GET", none⟩).1,
   (handler_cors_first_and_405 probeOk ⟨"GET", none⟩).2 (by decide)⟩

/-- Claim C8: for every POST with the required fields present, the client the
handler constructs uses the request region when it is a non-empty string and
the us-east-1 default otherwise, path-style addressing equal to the request
pathStyle when provided and false otherwise, and the provider-default endpoint
(none) when the request endpoint is absent or empty. -/
theorem handler_client_construction
    (probe : S3ClientConfig → String → Except S3Error Unit) (req : Request) (b : ReqBody)
    (hm : req.method = "POST") (hb : req.body = some b)
    (h1 : falsyStr b.accessKeyId = false) (h2 : falsyStr b.secretAccessKey = false)
    (h3 : falsyStr b.bucket = false) :
    Effect.constructClient (buildClient b) ∈ (handler probe req).2 ∧
    (buildClient b).region = (match b.region with
      | some r => if r = "" then "us-east-1" else r
      | none => "us-east-1") ∧
    (buildClient b).forcePathStyle = b.pathStyle.getD false ∧
    (buildClient b).endpoint = (match b.endpoint with
      | some s => if s = "" then none else some s
      | none => none) := by
  refine ⟨?_, ?_, rfl, ?_⟩
  · unfold handler
    simp only [hm, hb, h1, h2, h3, ne_eq, not_true_eq_false, Bool.or_self, Bool.or_false,
      if_false, Bool.false_eq_true, ite_false]
    cases probe (buildClient b) (b.bucket.getD "") <;> simp
  · rcases hr : b.region with _ | r
    · simp [buildClient, falsyStr, hr]
    · simp only [buildClient, falsyStr, hr, Option.getD_some]
      by_cases h : r = "" <;> simp [h]
  · rcases he : b.endpoint with _ | s
    · simp [buildClient, falsyStr, he]
    · simp only [buildClient, falsyStr, he, Option.getD_some]
      by_cases h : s = "" <;> simp [h]

/-- A request body with every field provided, used as a witness input. -/
def fullBody : ReqBody :=
  ⟨some "https://storage.example", some "AK", some "SK", some "eu-west-1", some "b", some true⟩

/-- Witness for handler_client_construction at a fully-populated body. -/
theorem handler_client_construction_witness :
    Effect.constructClient (buildClient fullBody) ∈
      (handler probeOk ⟨"POST", some fullBody⟩).2 ∧
    (buildClient fullBody).region = "eu-west-1" ∧
    (buildClient fullBody).forcePathStyle = true ∧
    (buildClient fullBody).endpoint = some "https://storage.example" :=
  handler_client_construction probeOk ⟨"POST", some fullBody⟩ fullBody rfl rfl
    (by decide) (by decide) (by decide)

/-- Claim C10: on every POST the handler answers with one of the statuses 200,
400 or 500, every 500 response carries a failure body whose message is the
failure prefix followed by some detail, and a POST with no body at all (an
undefined req.body, whose destructuring throws inside the try block) is
answered 500 with the caught TypeError text, not 400. -/
theorem handler_no_uncaught
    (probe : S3ClientConfig → String → Except S3Error Unit) (req : Request)
    (hm : req.method = "POST") :
    ((handler probe req).1.status = 200 ∨ (handler probe req).1.status = 400 ∨
     (handler probe req).1.status = 500) ∧
    ((handler probe req).1.status = 500 →
      ∃ s, (handler probe req).1.body = .result false ("Connection test failed: " ++ s)) ∧
    (req.body = none →
      (handler probe req).1 =
        ⟨500, .result false ("Connection test failed: " ++ destructureUndefinedMsg)⟩) := by
  unfold handler
  simp only [hm, ne_eq, not_true_eq_false, if_false, Bool.false_eq_true, ite_false]
  match req.body with
  | none =>
      exact ⟨Or.inr (Or.inr rfl), fun _ => ⟨destructureUndefinedMsg, rfl⟩, fun _ => rfl⟩
  | some b =>
      simp only
      split
      · refine ⟨Or.inr (Or.inl rfl), ?_, fun h => nomatch h⟩
        intro h
        simp at h
      · split
        · refine ⟨Or.inl rfl, ?_, fun h => nomatch h⟩
          intro h
          simp at h
        · rename_i e heq
          exact ⟨Or.inr (Or.inr rfl),
            fun _ => ⟨if e.name == "NoSuchBucket" then "Bucket not found" else e.message, rfl⟩,
            fun h => nomatch h⟩

/-- Witness for handler_no_uncaught at a POST carrying no body. -/
theorem handler_no_uncaught_witness :
    (handler probeOk ⟨"POST", none⟩).1 =
      ⟨500, .result false ("Connection test failed: " ++ destructureUndefinedMsg)⟩ :=
  (handler_no_uncaught probeOk ⟨"POST", none⟩ rfl).2.2 rfl

/-! ## Claims about the panel -/

/-- A fully-populated stored configuration used in counterexamples. -/
def fullConfig : S3Config := ⟨"e", "A", "S", "r", "b", true⟩

/-- Claim C3 counterexample: an incoming stored value with an empty secret but
a changed endpoint replaces the local editing copy wholesale, erasing the
non-empty locally-held secret, so the secret is not preserved regardless of
whether the non-secret fields changed. -/
theorem reconcile_erases_secret :
    (reconcile ⟨"", "", "S", "", "", false⟩
      (some ⟨"e", "", "", "", "", false⟩)).secretAccessKey = "" ∧
    ("S" : String) ≠ "" := by decide

/-- Claim C3 (amended): the locally-held secret survives reconciliation
whenever the incoming stored value has unchanged non-secret fields, and also
whenever the stored value is absent; only a stored value whose non-secret
fields differ replaces the local copy (secret included). -/
theorem reconcile_preserves_secret
    (config : S3Config) (stored : Option S3Config)
    (h : ∀ sc, stored = some sc → nonSecretEq config sc = true) :
    (reconcile config stored).secretAccessKey = config.secretAccessKey := by
  cases stored with
  | none =>
    simp only [reconcile]
    split <;> rfl
  | some sc =>
    simp [reconcile, h sc rfl]

/-- Witness for reconcile_preserves_secret: a stored update with the same
non-secret fields but an empty secret keeps the local secret. -/
theorem reconcile_preserves_secret_witness :
    (reconcile ⟨"", "", "S", "", "", false⟩
      (some ⟨"", "", "", "", "", false⟩)).secretAccessKey = "S" :=
  reconcile_preserves_secret ⟨"", "", "S", "", "", false⟩
    (some ⟨"", "", "", "", "", false⟩)
    (by intro sc hsc; cases hsc; decide)

/-- Claim C4 (code bug): the test action never issues a connectivity check:
its effect trace is empty (in particular it records no connectivityCheck
call and no store call) and it always ends displaying the constant successful
result with the testing flag cleared, for every panel state — the displayed
outcome is independent of the configuration. -/
theorem handleTestConnection_constant (st : PanelState) :
    (handleTestConnection st).1.testResult =
      some ⟨true, "Connection test successful"⟩ ∧
    (handleTestConnection st).1.isTesting = false ∧
    (handleTestConnection st).2 = ([] : List PanelEff) :=
  ⟨rfl, rfl, rfl⟩

/-- Claim C6 counterexample: after editing accessKeyId to a new value with a
failing settings write, the visible form state shows the new value rather than
the previous one, so the edited value was applied despite the persistence
error. -/
theorem handleChange_error_changes_visible_state :
    (handleChange (.error "disk full") ⟨none⟩ ⟨emptyConfig, none, false⟩
      (.accessKeyId "AK")).2.1.config.accessKeyId = "AK" ∧
    emptyConfig.accessKeyId = "" ∧ ("AK" : String) ≠ "" := by decide

/-- Claim C6 (amended): on a failing settings write the error is surfaced to
the user as a failure result carrying the persist error text, while the edited
value remains applied to the visible form state: the local config was updated
before the write and is not rolled back. -/
theorem handleChange_error_surfaced (settings : Settings) (st : PanelState)
    (edit : FieldEdit) (e : String) :
    (handleChange (.error e) settings st edit).2.1.testResult =
      some ⟨false, "Failed to save S3 configuration: " ++ e⟩ ∧
    (handleChange (.error e) settings st edit).2.1.config = applyEdit st.config edit :=
  ⟨rfl, rfl⟩

/-- Claim C7 counterexample: invoking the registered reset function issues no
store call at all and leaves the persisted settings holding the old non-empty
configuration, so the reset state is not persisted to the settings store. -/
theorem resetFn_does_not_persist :
    (resetFn ⟨some fullConfig⟩ ⟨fullConfig, none, false⟩).2.2 = [] ∧
    (resetFn ⟨some fullConfig⟩ ⟨fullConfig, none, false⟩).1 = ⟨some fullConfig⟩ ∧
    fullConfig ≠ emptyConfig := by decide

/-- Claim C7 (amended): the reset trigger restores every field of the local
ConfigValue to its empty default, but only locally: the settings store is left
unchanged and no persistence call is made. -/
theorem resetFn_clears_fields_locally (settings : Settings) (st : PanelState) :
    (resetFn settings st).2.1.config = emptyConfig ∧
    (resetFn settings st).1 = settings ∧
    (resetFn settings st).2.2 = [] :=
  ⟨rfl, rfl, rfl⟩

/-- Claim C9: every field edit whose settings write succeeds sets the
displayed result to the saved-successfully success message, overwriting
whatever result (such as a connectivity-test outcome) was displayed before. -/
theorem handleChange_success_overwrites_result (settings : Settings)
    (st : PanelState) (edit : FieldEdit) :
    (handleChange (.ok ()) settings st edit).2.1.testResult =
      some ⟨true, "S3 configuration saved successfully"⟩ := rfl
